import Mathlib

/-!
# Verification of the LiverAId risk-scoring core

Shallow embedding of the risk-scoring and score-interpretation engine of the
repository (src/app.py, src/models/cirrhosis_model.py, src/models/hcc_model_final.py,
src/models/nafld_model.py), together with theorems settling the claims about it.

Modelling conventions:
* Patient attribute values arriving from the form are modelled as `Option ℚ`
  (`none` = the field is absent from the `patient_data` dict).  The claims under
  study quantify over absent / non-positive numeric values; raw non-numeric
  strings passed through by the web layer are outside the modelled state space.
* Python floats are modelled as real numbers; `np.sqrt` / `np.log` as
  `Real.sqrt` / `Real.log`.  Every theorem that touches a logarithm keeps its
  argument positive, where the two semantics agree (the code guards positivity
  in the shared calculator; the unguarded spots are never given non-positive
  arguments by our theorems).  Division by zero (IEEE `inf`/`nan` vs Lean's
  `x / 0 = 0`) is likewise never exercised by a theorem.
* Python's `round(x, n)` on the values appearing in our statements is modelled
  by `⌊x * 10^n + 1/2⌋ / 10^n`; the statements only evaluate it away from
  representation/tie edge cases, where the two agree.
* Free-text interpretation strings built by the predictors' `_generate_interpretation`
  helpers are not modelled (no claim depends on them); every key of the result
  dictionaries that a claim observes is a field of the corresponding structure.
* `i18n.t` is passed around as an abstract translation function
  `tr : String → String`; concrete claims instantiate it with the English table.
-/

/-- A value stored in a score dictionary: a Python float or a string label. -/
inductive ScoreVal where
  | num (x : ℝ)
  | str (s : String)

/-- The two string labels a `ScoreVal` may carry for an unavailable score. -/
def missingData : ScoreVal := .str "Missing Data"

/-- The "Invalid Data" sentinel label. -/
def invalidData : ScoreVal := .str "Invalid Data"

/-- `patient_data` after the web layer's numeric coercion (src/app.py:478-495):
one `Option ℚ` per canonical lowercase field, `none` when the field is absent. -/
structure PatientData where
  age : Option ℚ := none
  gender : Option ℚ := none
  ast : Option ℚ := none
  alt : Option ℚ := none
  trombosit : Option ℚ := none
  albumin : Option ℚ := none
  bmi : Option ℚ := none
  inr : Option ℚ := none
  total_bilirubin : Option ℚ := none
  creatinine : Option ℚ := none
  direct_bilirubin : Option ℚ := none
  alp : Option ℚ := none
  obesity : Option ℚ := none
  afp : Option ℚ := none
  ascites : Option ℚ := none
  encephalopathy : Option ℚ := none
deriving DecidableEq

/-- Python's `x is not None and x > 0` for an optional numeric value. -/
def isPresentPos (v : Option ℚ) : Prop :=
  match v with
  | some x => 0 < x
  | none => False

instance (v : Option ℚ) : Decidable (isPresentPos v) := by
  unfold isPresentPos; cases v <;> infer_instance

/-- The shared traditional score dictionary built by
`calculate_traditional_scores` (src/app.py:97-170); the Child-Pugh keys are
added later by the result composer, hence optional. -/
structure TradScores where
  fib4 : ScoreVal
  apri : ScoreVal
  meld : ScoreVal
  bmiCategory : ScoreVal
  childPughScore : Option ScoreVal := none
  childPughClass : Option ScoreVal := none

noncomputable section

/-- Shared Traditional Score Calculator, `calculate_traditional_scores`
(src/app.py:97-170).  Each score is computed independently; a missing or
non-positive required input yields the `'Missing Data'` sentinel for that
score only.  (The `except` arm at src/app.py:161 is unreachable in this
numeric state space and is not modelled.) -/
def calculate_traditional_scores (pd : PatientData) : TradScores :=
  { fib4 :=
      if isPresentPos pd.age ∧ isPresentPos pd.ast ∧ isPresentPos pd.alt ∧
          isPresentPos pd.trombosit then
        .num ((((pd.age.getD 0 : ℚ) : ℝ) * ((pd.ast.getD 0 : ℚ) : ℝ)) /
          (((pd.trombosit.getD 0 : ℚ) : ℝ) * Real.sqrt ((pd.alt.getD 0 : ℚ) : ℝ)))
      else missingData
    apri :=
      if isPresentPos pd.ast ∧ isPresentPos pd.trombosit then
        .num ((((pd.ast.getD 0 : ℚ) : ℝ) / 40) / ((pd.trombosit.getD 0 : ℚ) : ℝ) * 100)
      else missingData
    meld :=
      if isPresentPos pd.total_bilirubin ∧ isPresentPos pd.inr ∧
          isPresentPos pd.creatinine then
        .num (3.78 * Real.log ((max (pd.total_bilirubin.getD 0) 1 : ℚ) : ℝ) +
          11.2 * Real.log ((max (pd.inr.getD 0) 1 : ℚ) : ℝ) +
          9.57 * Real.log ((max (pd.creatinine.getD 0) 1 : ℚ) : ℝ) + 6.43)
      else missingData
    bmiCategory :=
      match pd.bmi with
      | some b =>
        if 0 < b then
          if b < 18.5 then .str "Underweight"
          else if b < 25 then .str "Normal"
          else if b < 30 then .str "Overweight"
          else .str "Obese"
        else missingData
      | none => missingData }

end

/-- A score interpretation record: `{color, level, interpretation}`.  The
free-text third component is called `itext` here. -/
structure Interp where
  color : String
  level : String
  itext : String
deriving DecidableEq

noncomputable section

/-- FIB-4 branch of `get_score_interpretation` (src/app.py:191-200). -/
def interpFib4 (tr : String → String) (v : ScoreVal) : Interp :=
  match v with
  | .num x =>
    if x < 1.30 then ⟨"success", tr "results.low", tr "results.lowProbabilityAdvancedFibrosis"⟩
    else if x ≤ 2.67 then ⟨"warning", tr "results.intermediate", tr "results.intermediateProbability"⟩
    else ⟨"danger", tr "results.high", tr "results.highProbabilityAdvancedFibrosis"⟩
  | _ => ⟨"secondary", tr "results.invalid", tr "results.unableToCalculate"⟩

/-- APRI branch of `get_score_interpretation` (src/app.py:202-211). -/
def interpApri (tr : String → String) (v : ScoreVal) : Interp :=
  match v with
  | .num x =>
    if x < 0.5 then ⟨"success", tr "results.low", tr "results.lowProbabilitySignificantFibrosis"⟩
    else if x ≤ 1.5 then ⟨"warning", tr "results.intermediate", tr "results.intermediateProbability"⟩
    else ⟨"danger", tr "results.high", tr "results.highProbabilitySignificantFibrosis"⟩
  | _ => ⟨"secondary", tr "results.invalid", tr "results.unableToCalculate"⟩

/-- MELD branch of `get_score_interpretation` (src/app.py:213-224). -/
def interpMeld (tr : String → String) (v : ScoreVal) : Interp :=
  match v with
  | .num x =>
    if x < 10 then ⟨"success", tr "results.low", tr "results.lowMortalityRisk"⟩
    else if x ≤ 15 then ⟨"warning", tr "results.moderate", tr "results.moderateMortalityRisk"⟩
    else if x ≤ 20 then ⟨"warning", tr "results.high", tr "results.highMortalityRisk"⟩
    else ⟨"danger", tr "results.veryHigh", tr "results.veryHighMortalityRisk"⟩
  | _ => ⟨"secondary", tr "results.invalid", tr "results.unableToCalculate"⟩

/-- Child-Pugh Score branch of `get_score_interpretation` (src/app.py:226-237). -/
def interpChildPughScore (tr : String → String) (v : ScoreVal) : Interp :=
  match v with
  | .num x =>
    if x ≤ 6 then ⟨"success", "Class A", tr "results.childPughA"⟩
    else if x ≤ 9 then ⟨"warning", "Class B", tr "results.childPughB"⟩
    else if x ≤ 15 then ⟨"danger", "Class C", tr "results.childPughC"⟩
    else ⟨"danger", tr "results.severe", tr "results.criticalLiverFunction"⟩
  | _ => ⟨"secondary", tr "results.invalid", tr "results.unableToCalculate"⟩

/-- Child-Pugh Class branch of `get_score_interpretation` (src/app.py:239-247). -/
def interpChildPughClass (tr : String → String) (v : ScoreVal) : Interp :=
  match v with
  | .str "A" => ⟨"success", "Class A", tr "results.childPughA"⟩
  | .str "B" => ⟨"warning", "Class B", tr "results.childPughB"⟩
  | .str "C" => ⟨"danger", "Class C", tr "results.childPughC"⟩
  | _ => ⟨"secondary", tr "results.unknown", tr "results.unableToCalculate"⟩

/-- BMI Category branch of `get_score_interpretation` (src/app.py:249-259). -/
def interpBmiCategory (tr : String → String) (v : ScoreVal) : Interp :=
  match v with
  | .str "Underweight" => ⟨"info", tr "results.underweight", tr "results.belowNormalWeight"⟩
  | .str "Normal" => ⟨"success", tr "results.normal", tr "results.healthyWeight"⟩
  | .str "Overweight" => ⟨"warning", tr "results.overweight", tr "results.aboveNormalWeight"⟩
  | .str "Obese" => ⟨"danger", tr "results.obese", tr "results.significantlyAboveNormalWeight"⟩
  | _ => ⟨"secondary", tr "results.unknown", tr "results.unableToDetermineBMI"⟩

/-- Score Interpreter, `get_score_interpretation` (src/app.py:172-262): the
sentinel checks come first for every score name, then the per-score dispatch.
(`score_value is None` cannot arise in this state space; a whitespace-only
string is modelled by the empty string.) -/
def get_score_interpretation (tr : String → String) (name : String) (v : ScoreVal) : Interp :=
  match v with
  | .str "Missing Data" => ⟨"secondary", tr "results.missing", "Required parameters not provided"⟩
  | .str "Invalid Data" => ⟨"secondary", tr "results.invalid", "Invalid parameter values"⟩
  | .str "" => ⟨"secondary", tr "results.unknown", tr "results.unableToCalculate"⟩
  | v =>
    if name = "FIB-4" then interpFib4 tr v
    else if name = "APRI" then interpApri tr v
    else if name = "MELD" then interpMeld tr v
    else if name = "Child-Pugh Score" then interpChildPughScore tr v
    else if name = "Child-Pugh Class" then interpChildPughClass tr v
    else if name = "BMI Category" then interpBmiCategory tr v
    else ⟨"secondary", tr "results.unknown", tr "results.noInterpretationAvailable"⟩

end

/-- Modelled from the spec: the English `results.*` translation table.  The
translation JSON (static/js/languages/en.json) is not under src/; the spec
(§4.5, §8) uses the English level labels (`Error`, `High`, `Unknown`, ...)
directly, so the English table maps each key to that label. -/
def englishResultsT (k : String) : String :=
  if k = "results.low" then "Low"
  else if k = "results.moderate" then "Moderate"
  else if k = "results.high" then "High"
  else if k = "results.veryHigh" then "Very High"
  else if k = "results.intermediate" then "Intermediate"
  else if k = "results.unknown" then "Unknown"
  else if k = "results.invalid" then "Invalid"
  else if k = "results.error" then "Error"
  else if k = "results.missing" then "Missing"
  else if k = "results.underweight" then "Underweight"
  else if k = "results.normal" then "Normal"
  else if k = "results.overweight" then "Overweight"
  else if k = "results.obese" then "Obese"
  else k

/-- `translate_risk_levels`'s per-value map (src/app.py:264-284), applied to a
result's `risk_level` when it is one of the eight hardcoded labels. -/
def translateLevel (tr : String → String) (s : String) : String :=
  if s = "Low" then tr "results.low"
  else if s = "Moderate" then tr "results.moderate"
  else if s = "High" then tr "results.high"
  else if s = "Intermediate" then tr "results.intermediate"
  else if s = "Very High" then tr "results.veryHigh"
  else if s = "Unknown" then tr "results.unknown"
  else if s = "Invalid" then tr "results.invalid"
  else if s = "Error" then tr "results.error"
  else s

/-- Python's `int()` truncation toward zero on a rational, as used by
`safe_int` (src/app.py:609-613) on successfully coerced numeric values. -/
def pytrunc (q : ℚ) : ℤ :=
  if 0 ≤ q then ⌊q⌋ else -⌊-q⌋

/-- Albumin component of the Child-Pugh score (src/app.py:566-572). -/
def albScore (a : ℚ) : ℤ :=
  if a > 3.5 then 1 else if 2.8 ≤ a ∧ a ≤ 3.5 then 2 else 3

/-- Bilirubin component of the Child-Pugh score (src/app.py:574-580). -/
def bilScore (b : ℚ) : ℤ :=
  if b < 2 then 1 else if 2 ≤ b ∧ b ≤ 3 then 2 else 3

/-- INR component of the Child-Pugh score (src/app.py:582-588). -/
def inrScore (i : ℚ) : ℤ :=
  if i < 1.7 then 1 else if 1.7 ≤ i ∧ i ≤ 2.3 then 2 else 3

/-- `calculate_child_pugh` (src/app.py:565-606): total of the five component
scores and the class letter.  `ascites` and `encephalopathy` arrive already
truncated by `safe_int`. -/
def calculate_child_pugh (albumin bilirubin inr : ℚ) (ascites encephalopathy : ℤ) :
    ℤ × String :=
  let total := albScore albumin + bilScore bilirubin + inrScore inr +
    (ascites + 1) + (encephalopathy + 1)
  (total, if total ≤ 6 then "A" else if 7 ≤ total ∧ total ≤ 9 then "B" else "C")

/-!
## Cirrhosis predictor (src/models/cirrhosis_model.py)

No trained artifact (`cirrhosis_model*.pkl`) exists under src/models, so
`load_model` takes its no-artifact branch (src/models/cirrhosis_model.py:107-110),
which sets `model_type = 'Rule-based'` but never assigns `self.feature_names`
(that attribute is set only in the two artifact-present branches, lines 92 and
104).  `predict_risk` reads `self.feature_names` at line 150, inside its `try`
and before the missing-field check, so in this configuration every call raises
`AttributeError` and the method's own `except` (lines 248-261) returns the
`'Error Fallback'` dict — the rule-based scorer
`_enhanced_rule_based_prediction` and the embedded
`_calculate_traditional_scores` are unreachable through `predict_risk`.  We
embed the predictor with that always-fallback behavior, and separately embed
the (dead) `_calculate_traditional_scores` helper as a function of its own,
to compare its formulas with the shared calculator's.
-/

/-- A complete legacy-named `mapped_data` record of the cirrhosis predictor
(src/models/cirrhosis_model.py:63-76): the argument of the (dead)
`_calculate_traditional_scores` helper with all twelve mapped fields present. -/
structure CirrMapped where
  age : ℚ
  gender : ℚ
  ast : ℚ
  alt : ℚ
  trombosit : ℚ
  albumin : ℚ
  bmi : ℚ
  inr : ℚ
  totalBil : ℚ
  creatinine : ℚ
  dirBil : ℚ
  alp : ℚ
deriving DecidableEq

noncomputable section

/-- Python's `round(x, 2)` on a real (round-half-up idealization; only
evaluated away from tie/representation edge cases). -/
def pyRound2 (x : ℝ) : ℝ := (⌊x * 100 + 1 / 2⌋ : ℤ) / 100

/-- Python's `round(x, 1)`. -/
def pyRound1 (x : ℝ) : ℝ := (⌊x * 10 + 1 / 2⌋ : ℤ) / 10

/-- The cirrhosis predictor's embedded-score helper,
`_calculate_traditional_scores` (src/models/cirrhosis_model.py:391-467),
embedded as a function of its own: it is dead code in every configuration
(`predict_risk` errors out before reaching it when no artifact is loaded, and
with the XGBoost artifact the mapped data carries lowercase names the helper
never finds).  Modelled on a complete legacy-named record, where the
`field in mapped_data` presence checks all pass and the `'... Error'` entries
are unreachable; the textual `'... Interpretation'` entries are not modelled.
`alt ** 0.5` is `Real.sqrt` on the guarded domain `alt > 0`. -/
structure CirrTradScores where
  fib4 : Option ℝ := none
  apri : Option ℝ := none
  meld : Option ℝ := none

/-- See `CirrTradScores`. -/
def cirrTradScores (m : CirrMapped) : CirrTradScores :=
  { fib4 :=
      if 0 < m.trombosit ∧ 0 < m.alt then
        some (pyRound2 (((m.age : ℝ) * (m.ast : ℝ)) /
          ((m.trombosit : ℝ) * Real.sqrt (m.alt : ℝ))))
      else none
    apri :=
      if 0 < m.trombosit then
        some (pyRound2 (((m.ast : ℝ) / 40) / ((m.trombosit : ℝ) / 1000) * 100))
      else none
    meld :=
      some (pyRound1 (max 6 (min 40 (3.78 * Real.log (m.totalBil : ℝ) +
        11.2 * Real.log (m.inr : ℝ) + 9.57 * Real.log (m.creatinine : ℝ) + 6.43)))) }

/-- A cirrhosis `RiskResult` dict (src/models/cirrhosis_model.py:235-246 and the
error fallback at 250-261).  The fallback dict carries no `error` key, hence
`error := none` there too; `interpretation` text is not modelled. -/
structure CirrResult where
  disease : String
  riskProbability : ℚ
  riskClass : ℤ
  riskLevel : String
  riskColor : String
  tradScores : CirrTradScores
  modelType : String
  confidence : ℚ
  error : Option String := none

/-- `predict_cirrhosis_risk` / `CirrhosisRiskModel.predict_risk`
(src/models/cirrhosis_model.py:117-261) in the live artifact-free
configuration: `self.feature_names` is unset, so the read at line 150 raises
`AttributeError` before the missing-field check or any prediction, and the
method's own `except` (lines 248-261) returns the `'Error Fallback'` dict —
`risk_level 'Unknown'`, `risk_color 'secondary'`, empty `traditional_scores`,
no `error` key — for every input. -/
def predictCirrhosis (_pd : PatientData) : CirrResult :=
  { disease := "Cirrhosis", riskProbability := 0.5, riskClass := 0,
    riskLevel := "Unknown", riskColor := "secondary", tradScores := {},
    modelType := "Error Fallback", confidence := 0 }

end

/-!
## HCC predictor (src/models/hcc_model_final.py)

The trained SVM and its scaler are opaque artifacts; the predictor is
parameterized by their availability and by the two black-box functions.
-/

/-- The dataset-named feature dict of the HCC predictor after mapping
(src/models/hcc_model_final.py:84-105): `Trombosit` already multiplied by 1000,
`AFP`/`Obesity` filled with their defaults when absent. -/
structure HccFeat where
  age : ℚ
  gender : ℚ
  ast : ℚ
  alt : ℚ
  albumin : ℚ
  creatinine : ℚ
  inr : ℚ
  trombosit : ℚ
  totalBil : ℚ
  dirBil : ℚ
  obesity : ℚ
  alp : ℚ
  afp : ℚ
deriving DecidableEq

/-- The standardized row fed to the classifier: numerical columns scaled,
`Gender`/`Obesity` kept as-is (src/models/hcc_model_final.py:129-136). -/
structure HccRow where
  age : ℝ
  gender : ℝ
  ast : ℝ
  alt : ℝ
  albumin : ℝ
  creatinine : ℝ
  inr : ℝ
  trombosit : ℝ
  totalBil : ℝ
  dirBil : ℝ
  obesity : ℝ
  alp : ℝ
  afp : ℝ

/-- The HCC predictor's environment: artifact availability, the opaque
classifier (`predict_proba`'s class-1 column and `predict`), and the fitted
per-column standardization of the scaler. -/
structure HccParams where
  loaded : Bool
  probaClass1 : HccRow → ℝ
  predictClass : HccRow → ℤ
  scale : String → ℚ → ℝ

/-- The required-field check of the HCC mapping loop
(src/models/hcc_model_final.py:88-105,116-117), in mapping order; only `AFP`
and `Obesity` may be absent. -/
def hccMissing (pd : PatientData) : List String :=
  (if pd.age = none then ["age"] else []) ++
  (if pd.gender = none then ["gender"] else []) ++
  (if pd.ast = none then ["ast"] else []) ++
  (if pd.alt = none then ["alt"] else []) ++
  (if pd.albumin = none then ["albumin"] else []) ++
  (if pd.creatinine = none then ["creatinine"] else []) ++
  (if pd.inr = none then ["inr"] else []) ++
  (if pd.trombosit = none then ["trombosit"] else []) ++
  (if pd.total_bilirubin = none then ["total_bilirubin"] else []) ++
  (if pd.direct_bilirubin = none then ["direct_bilirubin"] else []) ++
  (if pd.alp = none then ["alp"] else [])

/-- The mapped HCC feature dict (src/models/hcc_model_final.py:88-105):
`some` exactly when no required field is missing; `Trombosit` is the form
value times 1000, `AFP` defaults to 0.0 and `Obesity` to 0. -/
def hccFeatures (pd : PatientData) : Option HccFeat :=
  match pd.age, pd.gender, pd.ast, pd.alt, pd.albumin, pd.creatinine, pd.inr,
      pd.trombosit, pd.total_bilirubin, pd.direct_bilirubin, pd.alp with
  | some age, some gender, some ast, some alt, some alb, some cr, some inr,
      some tr, some tb, some db, some alp =>
    some ⟨age, gender, ast, alt, alb, cr, inr, tr * 1000, tb, db,
      pd.obesity.getD 0, alp, pd.afp.getD 0⟩
  | _, _, _, _, _, _, _, _, _, _, _ => none

/-- The preprocessing of src/models/hcc_model_final.py:133-136: standardize the
eleven numerical columns with the fitted scaler, pass `Gender` and `Obesity`
through unscaled. -/
def hccPreprocess (scale : String → ℚ → ℝ) (f : HccFeat) : HccRow :=
  { age := scale "Age" f.age
    gender := (f.gender : ℝ)
    ast := scale "AST" f.ast
    alt := scale "ALT" f.alt
    albumin := scale "Albumin" f.albumin
    creatinine := scale "Creatinine" f.creatinine
    inr := scale "INR" f.inr
    trombosit := scale "Trombosit" f.trombosit
    totalBil := scale "Total_Bil" f.totalBil
    dirBil := scale "Dir_Bil" f.dirBil
    obesity := (f.obesity : ℝ)
    alp := scale "ALP" f.alp
    afp := scale "AFP" f.afp }

/-- An HCC `RiskResult` dict (src/models/hcc_model_final.py:159-185); the
embedded `traditional_scores` of this predictor and the interpretation text are
not modelled (no claim observes them). -/
structure HccResult where
  disease : String
  riskProbability : ℝ
  riskClass : ℤ
  riskLevel : String
  riskColor : String
  modelType : String
  error : Option String := none

/-- The error dict of the HCC predictor's own `except` arm
(src/models/hcc_model_final.py:172-185). -/
def hccErrorResult (msg : String) : HccResult :=
  { disease := "HCC (Hepatocellular Carcinoma)", riskProbability := 0,
    riskClass := 0, riskLevel := "Error", riskColor := "secondary",
    modelType := "Error", error := some msg }

noncomputable section

/-- `predict_hcc_risk` / `HCCRiskModelFinal.predict_risk`
(src/models/hcc_model_final.py:76-185): absent artifacts or missing required
fields raise inside the method and its own `except` returns the error dict;
otherwise the reported probability is `1 - P(class = 1)` on the standardized
row. -/
def predictHcc (P : HccParams) (pd : PatientData) : HccResult :=
  if P.loaded = false then hccErrorResult "Model or scaler not loaded properly"
  else
    match hccFeatures pd with
    | none =>
      hccErrorResult ("Missing required fields for HCC prediction: " ++
        String.intercalate ", " (hccMissing pd))
    | some f =>
      let row := hccPreprocess P.scale f
      let p := 1 - P.probaClass1 row
      { disease := "HCC (Hepatocellular Carcinoma)"
        riskProbability := p
        riskClass := P.predictClass row
        riskLevel := if p < 0.3 then "Low" else if p < 0.7 then "Moderate" else "High"
        riskColor := if p < 0.3 then "success" else if p < 0.7 then "warning" else "danger"
        modelType := "SVM Trained Model (Standardized)" }

end

/-!
## NAFLD predictor (src/models/nafld_model.py)

The CatBoost artifact path (`../models-temp/nafld/catboost_model.pkl`) does not
exist under src/, so `load_model` leaves `self.model = None` and `predict_risk`
uses the rule-based `_mock_classification` fallback; we embed that live
configuration.
-/

/-- Age component of `_mock_classification` (src/models/nafld_model.py:202-207). -/
def mockAgeScore (age : ℚ) : ℚ :=
  if age > 50 then 0.3 else if age > 40 then 0.2 else 0

/-- BMI component (src/models/nafld_model.py:209-216). -/
def mockBmiScore (bmi : ℚ) : ℚ :=
  if bmi > 35 then 0.4 else if bmi > 30 then 0.3 else if bmi > 25 then 0.2 else 0

/-- Liver-enzyme component (src/models/nafld_model.py:218-226). -/
def mockEnzymeScore (ast alt : ℚ) : ℚ :=
  if ast > 80 ∨ alt > 80 then 0.4
  else if ast > 40 ∨ alt > 40 then 0.3
  else if ast > 30 ∨ alt > 30 then 0.2 else 0

/-- AST/ALT-quotient component (src/models/nafld_model.py:228-234). -/
def mockAstAltScore (ast alt : ℚ) : ℚ :=
  if 0 < ast ∧ 0 < alt then
    if ast / alt > 1.5 then 0.3 else if ast / alt > 1.0 then 0.2 else 0
  else 0

/-- Platelet component (src/models/nafld_model.py:236-241): the code tests
`platelets < 150` first and only then `platelets < 100`. -/
def mockPlateletScore (p : ℚ) : ℚ :=
  if p < 150 then 0.2 else if p < 100 then 0.3 else 0

/-- Albumin component (src/models/nafld_model.py:243-248). -/
def mockAlbuminScore (a : ℚ) : ℚ :=
  if a < 3.5 then 0.2 else if a < 4.0 then 0.1 else 0

/-- INR component (src/models/nafld_model.py:250-255). -/
def mockInrScore (i : ℚ) : ℚ :=
  if i > 1.3 then 0.2 else if i > 1.1 then 0.1 else 0

/-- The additive score of `_mock_classification`
(src/models/nafld_model.py:199-255) on the raw patient dict (lowercase keys in
the live flow; absent values default to 0 through `.get`). -/
def mockScore (pd : PatientData) : ℚ :=
  mockAgeScore (pd.age.getD 0) + mockBmiScore (pd.bmi.getD 0) +
    mockEnzymeScore (pd.ast.getD 0) (pd.alt.getD 0) +
    mockAstAltScore (pd.ast.getD 0) (pd.alt.getD 0) +
    mockPlateletScore (pd.trombosit.getD 0) +
    mockAlbuminScore (pd.albumin.getD 0) + mockInrScore (pd.inr.getD 0)

/-- The classification decision of `_mock_classification`
(src/models/nafld_model.py:257-261): `(classification, color, confidence)`. -/
def mockClassify (pd : PatientData) : String × String × ℚ :=
  let s := mockScore pd
  if s > 0.6 then ("NASH", "danger", min (s * 100) 95)
  else ("NAFL", "warning", min ((1 - s) * 100) 95)

noncomputable section

/-- The NAFLD predictor's embedded traditional scores,
`_calculate_traditional_scores` (src/models/nafld_model.py:263-309), on the raw
patient dict: absent values default to 0, platelets are floored at 1, the
AST/ALT divisor is floored at 1, and every numeric score is always computed. -/
structure NafldTradScores where
  nfs : ℝ
  fib4 : ℝ
  apri : ℝ
  bmiCategory : String

/-- See `NafldTradScores`. -/
def nafldTradScores (pd : PatientData) : NafldTradScores :=
  let age := pd.age.getD 0
  let bmi := pd.bmi.getD 0
  let ast := pd.ast.getD 0
  let alt := pd.alt.getD 0
  let platelets := max (pd.trombosit.getD 0) 1
  let albumin := pd.albumin.getD 0
  let diabetes : ℚ := 0
  { nfs := ((-1.675 + 0.037 * age + 0.094 * bmi + 1.13 * diabetes +
      0.99 * (ast / max alt 1) - 0.013 * platelets - 0.66 * albumin : ℚ) : ℝ)
    fib4 := ((age : ℝ) * (ast : ℝ)) / ((platelets : ℝ) * Real.sqrt (alt : ℝ))
    apri := (((ast / 40) / platelets * 100 : ℚ) : ℝ)
    bmiCategory :=
      if bmi < 18.5 then "Underweight" else if bmi < 25 then "Normal"
      else if bmi < 30 then "Overweight" else "Obese" }

/-- A NAFLD result dict (src/models/nafld_model.py:163-187); note it carries a
`classification`, not a `risk_level`. -/
structure NafldResult where
  disease : String
  classification : String
  classificationDescription : String
  confidence : ℚ
  predictionClass : ℤ
  riskColor : String
  tradScores : Option NafldTradScores
  modelType : String
  error : Option String := none

/-- The missing-feature list of the NAFLD mapping loop
(src/models/nafld_model.py:89-104), in feature order, using the model's
feature names. -/
def nafldMissing (pd : PatientData) : List String :=
  (if pd.age = none then ["Age"] else []) ++
  (if pd.gender = none then ["Gender (Female=1, Male=2)"] else []) ++
  (if pd.ast = none then ["AST"] else []) ++
  (if pd.alt = none then ["ALT"] else []) ++
  (if pd.trombosit = none then ["Trombosit"] else []) ++
  (if pd.albumin = none then ["Albumin"] else []) ++
  (if pd.bmi = none then ["Body Mass Index"] else []) ++
  (if pd.inr = none then ["INR"] else []) ++
  (if pd.total_bilirubin = none then ["Total Bilirubin"] else []) ++
  (if pd.creatinine = none then ["Creatinine"] else []) ++
  (if pd.direct_bilirubin = none then ["Direct Bilirubin"] else []) ++
  (if pd.alp = none then ["ALP"] else [])

/-- `predict_nafld_classification` / `NAFLDRiskModel.predict_risk`
(src/models/nafld_model.py:54-187) in the live configuration (no CatBoost
artifact): all twelve mapped fields are required; a missing one raises a
`ValueError` that the method's own `except` turns into the `'Error'`
classification dict; otherwise the rule-based fallback classifies. -/
def predictNafld (pd : PatientData) : NafldResult :=
  if nafldMissing pd = [] then
    let c := mockClassify pd
    { disease := "MAFLD Classification"
      classification := c.1
      classificationDescription :=
        if c.1 = "NASH" then "Non-Alcoholic Steatohepatitis (Inflammatory)"
        else "Non-Alcoholic Fatty Liver (Simple Steatosis)"
      confidence := c.2.2
      predictionClass := 1
      riskColor := c.2.1
      tradScores := some (nafldTradScores pd)
      modelType := "Rule-based Classification" }
  else
    { disease := "MAFLD Classification"
      classification := "Error"
      classificationDescription := "Error in classification"
      confidence := 0
      predictionClass := 0
      riskColor := "secondary"
      tradScores := none
      modelType := "Error"
      error := some ("Missing required fields for NAFLD prediction: " ++
        String.intercalate ", " (nafldMissing pd)) }

end

/-!
## Result Composer (src/app.py:468-689, route `calculate_risks`)
-/

/-- The `score_interpretations` dict built at src/app.py:659-662: one entry per
key of the (possibly Child-Pugh-extended) traditional score dict. -/
structure ScoreInterps where
  fib4 : Interp
  apri : Interp
  meld : Interp
  bmiCategory : Interp
  childPughScore : Option Interp := none
  childPughClass : Option Interp := none

noncomputable section

/-- Run the Score Interpreter over every entry of a traditional score dict
(src/app.py:659-662). -/
def mkInterps (tr : String → String) (ts : TradScores) : ScoreInterps :=
  { fib4 := get_score_interpretation tr "FIB-4" ts.fib4
    apri := get_score_interpretation tr "APRI" ts.apri
    meld := get_score_interpretation tr "MELD" ts.meld
    bmiCategory := get_score_interpretation tr "BMI Category" ts.bmiCategory
    childPughScore := ts.childPughScore.map (get_score_interpretation tr "Child-Pugh Score")
    childPughClass := ts.childPughClass.map (get_score_interpretation tr "Child-Pugh Class") }

/-- The aggregate rendered by the `calculate_risks` route on success. -/
structure AssessmentResult where
  cirrhosis : CirrResult
  hcc : HccResult
  nafld : NafldResult
  traditionalScores : TradScores
  interps : ScoreInterps
  childPugh : ℤ × String

/-- The Result Composer, route `calculate_risks` (src/app.py:468-689), on the
coerced numeric `patient_data`:
* slices the patient dict and runs the three predictors (each of which catches
  its own failures and returns a result dict, src/app.py:519-556);
* computes the shared traditional scores and translates the `risk_level`
  entries (`results['nafld']` has no such key);
* validates the five Child-Pugh inputs; on a missing input (src/app.py:624-627)
  or a non-positive albumin/bilirubin/INR (src/app.py:637-639) it executes a
  bare `return`, which exits the whole route with `None` — modelled as `none`;
* otherwise extends the score dict with the Child-Pugh entries, interprets
  every entry of the extended dict, and renders. -/
def calculate_risks (P : HccParams) (tr : String → String) (pd : PatientData) :
    Option AssessmentResult :=
  let cirr0 := predictCirrhosis pd
  let hcc0 := predictHcc P pd
  let naf := predictNafld pd
  let ts := calculate_traditional_scores pd
  let cirr := { cirr0 with riskLevel := translateLevel tr cirr0.riskLevel }
  let hcc := { hcc0 with riskLevel := translateLevel tr hcc0.riskLevel }
  match pd.albumin, pd.total_bilirubin, pd.inr, pd.ascites, pd.encephalopathy with
  | some alb, some bil, some inr, some asc, some enc =>
    if alb ≤ 0 ∨ bil ≤ 0 ∨ inr ≤ 0 then none
    else
      let cp := calculate_child_pugh alb bil inr (pytrunc asc) (pytrunc enc)
      let ts2 := { ts with childPughScore := some (.num (cp.1 : ℝ)),
                           childPughClass := some (.str cp.2) }
      some ⟨cirr, hcc, naf, ts2, mkInterps tr ts2, cp⟩
  | _, _, _, _, _ => none

end

/-!
## Claims
-/

/-- C6: For albumin, bilirubin, INR > 0 and ascites, encephalopathy in
`{0,1,2}`, the Child-Pugh score is the sum of the five component scores
(albumin: `>3.5 → 1`, `[2.8,3.5] → 2`, `<2.8 → 3`; bilirubin: `<2 → 1`,
`[2,3] → 2`, `>3 → 3`; INR: `<1.7 → 1`, `[1.7,2.3] → 2`, `>2.3 → 3`;
ascites/encephalopathy: ordinal + 1); the total lies in `[5,15]`; and the
class is `A` iff total ≤ 6, `B` iff 7 ≤ total ≤ 9, `C` iff total ≥ 10. -/
theorem C6_child_pugh_sum_range_class (a b i : ℚ) (asc enc : ℤ)
    (ha : 0 < a) (hb : 0 < b) (hi : 0 < i)
    (hasc : 0 ≤ asc ∧ asc ≤ 2) (henc : 0 ≤ enc ∧ enc ≤ 2) :
    ((3.5 < a → albScore a = 1) ∧ (2.8 ≤ a ∧ a ≤ 3.5 → albScore a = 2) ∧
      (a < 2.8 → albScore a = 3)) ∧
    ((b < 2 → bilScore b = 1) ∧ (2 ≤ b ∧ b ≤ 3 → bilScore b = 2) ∧
      (3 < b → bilScore b = 3)) ∧
    ((i < 1.7 → inrScore i = 1) ∧ (1.7 ≤ i ∧ i ≤ 2.3 → inrScore i = 2) ∧
      (2.3 < i → inrScore i = 3)) ∧
    (calculate_child_pugh a b i asc enc).1 =
      albScore a + bilScore b + inrScore i + (asc + 1) + (enc + 1) ∧
    (5 ≤ (calculate_child_pugh a b i asc enc).1 ∧
      (calculate_child_pugh a b i asc enc).1 ≤ 15) ∧
    ((calculate_child_pugh a b i asc enc).2 = "A" ↔
      (calculate_child_pugh a b i asc enc).1 ≤ 6) ∧
    ((calculate_child_pugh a b i asc enc).2 = "B" ↔
      7 ≤ (calculate_child_pugh a b i asc enc).1 ∧
        (calculate_child_pugh a b i asc enc).1 ≤ 9) ∧
    ((calculate_child_pugh a b i asc enc).2 = "C" ↔
      10 ≤ (calculate_child_pugh a b i asc enc).1) := by
  have hA : 1 ≤ albScore a ∧ albScore a ≤ 3 := by unfold albScore; split_ifs <;> omega
  have hB : 1 ≤ bilScore b ∧ bilScore b ≤ 3 := by unfold bilScore; split_ifs <;> omega
  have hI : 1 ≤ inrScore i ∧ inrScore i ≤ 3 := by unfold inrScore; split_ifs <;> omega
  refine ⟨⟨?_, ?_, ?_⟩, ⟨?_, ?_, ?_⟩, ⟨?_, ?_, ?_⟩, rfl, by
    simp only [calculate_child_pugh]; omega, ?_, ?_, ?_⟩
  · intro h; unfold albScore; rw [if_pos h]
  · intro h; unfold albScore
    rw [if_neg (by simp only [not_lt]; exact h.2), if_pos h]
  · intro h; unfold albScore
    rw [if_neg (by simp only [not_lt]; linarith), if_neg (by
      simp only [not_and, not_le]; intro h2; linarith)]
  · intro h; unfold bilScore; rw [if_pos h]
  · intro h; unfold bilScore
    rw [if_neg (by simp only [not_lt]; exact h.1), if_pos h]
  · intro h; unfold bilScore
    rw [if_neg (by simp only [not_lt]; linarith), if_neg (by
      simp only [not_and, not_le]; intro h2; linarith)]
  · intro h; unfold inrScore; rw [if_pos h]
  · intro h; unfold inrScore
    rw [if_neg (by simp only [not_lt]; exact h.1), if_pos h]
  · intro h; unfold inrScore
    rw [if_neg (by simp only [not_lt]; linarith), if_neg (by
      simp only [not_and, not_le]; intro h2; linarith)]
  · simp only [calculate_child_pugh]
    split_ifs with h6 h79 <;>
      simp only [String.reduceEq, false_iff, true_iff, not_le] <;> omega
  · simp only [calculate_child_pugh]
    split_ifs with h6 h79 <;>
      simp only [String.reduceEq, false_iff, true_iff, not_and, not_le] <;> omega
  · simp only [calculate_child_pugh]
    split_ifs with h6 h79 <;>
      simp only [String.reduceEq, false_iff, true_iff, not_le] <;> omega

/-- C6 witness: the claim's concrete case — albumin 3.0, bilirubin 2.5,
INR 1.8, ascites 1, encephalopathy 0 gives components `{2,2,2,2,1}`,
total 9, Class B. -/
theorem C6_witness :
    ((0:ℚ) < 3 ∧ (0:ℚ) < 5/2 ∧ (0:ℚ) < 9/5) ∧
    calculate_child_pugh 3 (5/2) (9/5) 1 0 = (9, "B") ∧
    (albScore 3 = 2 ∧ bilScore (5/2) = 2 ∧ inrScore (9/5) = 2) ∧
    (5 ≤ (calculate_child_pugh 3 (5/2) (9/5) 1 0).1 ∧
      (calculate_child_pugh 3 (5/2) (9/5) 1 0).1 ≤ 15) := by
  have h := C6_child_pugh_sum_range_class 3 (5/2) (9/5) 1 0 (by norm_num)
    (by norm_num) (by norm_num) ⟨by norm_num, by norm_num⟩ ⟨by norm_num, by norm_num⟩
  refine ⟨⟨by norm_num, by norm_num, by norm_num⟩,
    by simp only [calculate_child_pugh, albScore, bilScore, inrScore]; norm_num,
    ⟨by simp only [albScore]; norm_num, by simp only [bilScore]; norm_num,
      by simp only [inrScore]; norm_num⟩,
    h.2.2.2.2.1⟩

/-- C9: the BMI Category of the shared Traditional Score Calculator uses
half-open bands — `bmi < 18.5 → Underweight`, `[18.5,25) → Normal`,
`[25,30) → Overweight`, `≥ 30 → Obese` — and an absent or non-positive BMI
yields the `'Missing Data'` sentinel. -/
theorem C9_bmi_half_open_bands (pd : PatientData) (b : ℚ) :
    (pd.bmi = none → (calculate_traditional_scores pd).bmiCategory = missingData) ∧
    (pd.bmi = some b → b ≤ 0 →
      (calculate_traditional_scores pd).bmiCategory = missingData) ∧
    (pd.bmi = some b → 0 < b →
      (((calculate_traditional_scores pd).bmiCategory = .str "Underweight" ↔ b < 18.5) ∧
       ((calculate_traditional_scores pd).bmiCategory = .str "Normal" ↔ 18.5 ≤ b ∧ b < 25) ∧
       ((calculate_traditional_scores pd).bmiCategory = .str "Overweight" ↔ 25 ≤ b ∧ b < 30) ∧
       ((calculate_traditional_scores pd).bmiCategory = .str "Obese" ↔ 30 ≤ b))) := by
  refine ⟨fun h => by simp only [calculate_traditional_scores, h], fun h hb => ?_, fun h hb => ?_⟩
  · simp only [calculate_traditional_scores, h]
    rw [if_neg (by linarith)]
  · simp only [calculate_traditional_scores, h]
    rw [if_pos hb]
    refine ⟨?_, ?_, ?_, ?_⟩ <;>
      split_ifs <;>
        simp only [ScoreVal.str.injEq, String.reduceEq, false_iff, true_iff,
          not_lt, not_and, not_le] <;>
      first
        | linarith
        | (constructor <;> linarith)
        | (intro hh; linarith)
  
/-- C9 witness: `bmi = 25.0 → Overweight` (not Normal) and
`bmi = 18.5 → Normal` (not Underweight); absent BMI gives the sentinel. -/
theorem C9_witness :
    (calculate_traditional_scores { bmi := some 25 }).bmiCategory = .str "Overweight" ∧
    (calculate_traditional_scores { bmi := some (37/2) }).bmiCategory = .str "Normal" ∧
    (calculate_traditional_scores {}).bmiCategory = missingData := by
  refine ⟨?_, ?_, ?_⟩
  · exact ((C9_bmi_half_open_bands { bmi := some 25 } 25).2.2 rfl (by norm_num)).2.2.1.mpr
      (by norm_num)
  · exact ((C9_bmi_half_open_bands { bmi := some (37/2) } (37/2)).2.2 rfl
      (by norm_num)).2.1.mpr (by norm_num)
  · exact (C9_bmi_half_open_bands {} 0).1 rfl

/-- C10: in the NAFLD rule-based fallback, the `platelets < 100` branch that
would add `0.3` is dead code: the platelet component of `_mock_classification`
equals `0.2` whenever `platelets < 150` (which subsumes `< 100`) and `0`
otherwise, and is never `0.3`. -/
theorem C10_severe_thrombocytopenia_unreachable (p : ℚ) :
    mockPlateletScore p = (if p < 150 then (0.2 : ℚ) else 0) ∧
    mockPlateletScore p ≠ 0.3 := by
  unfold mockPlateletScore
  constructor
  · split_ifs with h1 h2 <;> first | rfl | linarith
  · split_ifs with h1 h2 <;> first | (exfalso; linarith) | norm_num

/-- A fully populated patient record used as the base point of the concrete
statements (values as in the spec's §8 examples where applicable). -/
def pdFull : PatientData :=
  { age := some 50, gender := some 1, ast := some 80, alt := some 40,
    trombosit := some 200, albumin := some 3, bmi := some 27, inr := some (9/5),
    total_bilirubin := some (5/2), creatinine := some (6/5),
    direct_bilirubin := some (1/2), alp := some 100, obesity := some 0,
    afp := none, ascites := some 1, encephalopathy := some 0 }

/-- C2 (amended): in the shared Traditional Score Calculator each score obeys
the sentinel policy — the result is the `'Missing Data'` sentinel exactly when
a required input is absent or non-positive, and a computed number (or, for the
BMI, one of the four category labels) exactly otherwise; the function is total,
so no run raises. -/
theorem C2_shared_sentinel_policy (pd : PatientData) :
    (((calculate_traditional_scores pd).fib4 = missingData ↔
        ¬(isPresentPos pd.age ∧ isPresentPos pd.ast ∧ isPresentPos pd.alt ∧
          isPresentPos pd.trombosit)) ∧
      ((∃ x, (calculate_traditional_scores pd).fib4 = .num x) ↔
        (isPresentPos pd.age ∧ isPresentPos pd.ast ∧ isPresentPos pd.alt ∧
          isPresentPos pd.trombosit))) ∧
    (((calculate_traditional_scores pd).apri = missingData ↔
        ¬(isPresentPos pd.ast ∧ isPresentPos pd.trombosit)) ∧
      ((∃ x, (calculate_traditional_scores pd).apri = .num x) ↔
        (isPresentPos pd.ast ∧ isPresentPos pd.trombosit))) ∧
    (((calculate_traditional_scores pd).meld = missingData ↔
        ¬(isPresentPos pd.total_bilirubin ∧ isPresentPos pd.inr ∧
          isPresentPos pd.creatinine)) ∧
      ((∃ x, (calculate_traditional_scores pd).meld = .num x) ↔
        (isPresentPos pd.total_bilirubin ∧ isPresentPos pd.inr ∧
          isPresentPos pd.creatinine))) ∧
    (((calculate_traditional_scores pd).bmiCategory = missingData ↔
        ¬ isPresentPos pd.bmi) ∧
      ((∃ s, (s = "Underweight" ∨ s = "Normal" ∨ s = "Overweight" ∨ s = "Obese") ∧
          (calculate_traditional_scores pd).bmiCategory = .str s) ↔
        isPresentPos pd.bmi)) := by
  refine ⟨⟨?_, ?_⟩, ⟨?_, ?_⟩, ⟨?_, ?_⟩, ⟨?_, ?_⟩⟩
  · by_cases h : isPresentPos pd.age ∧ isPresentPos pd.ast ∧ isPresentPos pd.alt ∧
        isPresentPos pd.trombosit <;>
      simp [calculate_traditional_scores, h, missingData]
  · by_cases h : isPresentPos pd.age ∧ isPresentPos pd.ast ∧ isPresentPos pd.alt ∧
        isPresentPos pd.trombosit <;>
      simp [calculate_traditional_scores, h, missingData]
  · by_cases h : isPresentPos pd.ast ∧ isPresentPos pd.trombosit <;>
      simp [calculate_traditional_scores, h, missingData]
  · by_cases h : isPresentPos pd.ast ∧ isPresentPos pd.trombosit <;>
      simp [calculate_traditional_scores, h, missingData]
  · by_cases h : isPresentPos pd.total_bilirubin ∧ isPresentPos pd.inr ∧
        isPresentPos pd.creatinine <;>
      simp [calculate_traditional_scores, h, missingData]
  · by_cases h : isPresentPos pd.total_bilirubin ∧ isPresentPos pd.inr ∧
        isPresentPos pd.creatinine <;>
      simp [calculate_traditional_scores, h, missingData]
  · match hb : pd.bmi with
    | none => simp [calculate_traditional_scores, hb, missingData, isPresentPos]
    | some b =>
      by_cases h : 0 < b
      · simp only [calculate_traditional_scores, hb, if_pos h, missingData, isPresentPos]
        split_ifs <;> simp [h]
      · simp [calculate_traditional_scores, hb, if_neg h, missingData, isPresentPos, h]
  · match hb : pd.bmi with
    | none => simp [calculate_traditional_scores, hb, missingData, isPresentPos]
    | some b =>
      by_cases h : 0 < b
      · constructor
        · intro _; simpa [isPresentPos, hb] using h
        · intro _
          simp only [calculate_traditional_scores, hb, if_pos h]
          split_ifs with h1 h2 h3
          · exact ⟨"Underweight", Or.inl rfl, rfl⟩
          · exact ⟨"Normal", Or.inr (Or.inl rfl), rfl⟩
          · exact ⟨"Overweight", Or.inr (Or.inr (Or.inl rfl)), rfl⟩
          · exact ⟨"Obese", Or.inr (Or.inr (Or.inr rfl)), rfl⟩
      · simp only [calculate_traditional_scores, hb, if_neg h, missingData, isPresentPos, h,
          iff_false, not_exists]
        rintro s ⟨hs, hcontra⟩
        rcases hs with rfl | rfl | rfl | rfl <;> simp at hcontra

/-- C2 counterexample: the NAFLD predictor's embedded calculator violates the
policy — with `ast = 0` present (a value that is `≤ 0` where positivity is
required) it returns the computed number `0` for APRI, while the shared
calculator returns the `'Missing Data'` sentinel on the same patient. -/
theorem C2_counterexample_nafld_embedded :
    (nafldTradScores { pdFull with ast := some 0 }).apri = 0 ∧
    (calculate_traditional_scores { pdFull with ast := some 0 }).apri = missingData := by
  constructor
  · simp only [nafldTradScores, pdFull]
    norm_num
  · simp only [calculate_traditional_scores, pdFull]
    rw [if_neg]
    simp [isPresentPos]

/-- `exp 2` upper bound, from the Mathlib decimal bound on `exp 1`. -/
lemma exp_two_lt : Real.exp 2 < 7.3890561 := by
  have h2 : Real.exp 2 = Real.exp 1 ^ (2:ℕ) := by
    rw [← Real.exp_nat_mul]; norm_num
  nlinarith [Real.exp_one_lt_d9, Real.exp_pos 1]

/-- Lower bound `log (3/2) > 2/5`. -/
lemma log_three_halves_gt : (2/5 : ℝ) < Real.log (3/2) := by
  rw [Real.lt_log_iff_exp_lt (by norm_num)]
  have h5 : Real.exp (2/5) ^ (5:ℕ) = Real.exp 2 := by
    rw [← Real.exp_nat_mul]; norm_num
  have hpow : Real.exp (2/5) ^ (5:ℕ) < (3/2 : ℝ) ^ (5:ℕ) := by
    rw [h5]; nlinarith [exp_two_lt]
  exact lt_of_pow_lt_pow_left₀ 5 (by norm_num) hpow

/-- Lower bound `log (6/5) > 2/11`. -/
lemma log_six_fifths_gt : (2/11 : ℝ) < Real.log (6/5) := by
  rw [Real.lt_log_iff_exp_lt (by norm_num)]
  have h11 : Real.exp (2/11) ^ (11:ℕ) = Real.exp 2 := by
    rw [← Real.exp_nat_mul]; norm_num
  have hpow : Real.exp (2/11) ^ (11:ℕ) < (6/5 : ℝ) ^ (11:ℕ) := by
    rw [h11]; nlinarith [exp_two_lt]
  exact lt_of_pow_lt_pow_left₀ 11 (by norm_num) hpow

/-- Upper bound `log (3/2) < 0.41`, via `(1 + x/32)^32 ≤ exp x`. -/
lemma log_three_halves_lt : Real.log (3/2) < 0.41 := by
  rw [Real.log_lt_iff_lt_exp (by norm_num)]
  have hle : ((1 : ℝ) + 0.41/32) ^ (32:ℕ) ≤ Real.exp 0.41 := by
    calc ((1:ℝ) + 0.41/32) ^ (32:ℕ) ≤ Real.exp (0.41/32) ^ (32:ℕ) := by
          refine pow_le_pow_left₀ (by norm_num) ?_ 32
          linarith [Real.add_one_le_exp (0.41/32)]
      _ = Real.exp 0.41 := by rw [← Real.exp_nat_mul]; norm_num
  have hgt : (3/2 : ℝ) < ((1:ℝ) + 0.41/32) ^ (32:ℕ) := by norm_num
  linarith

/-- Upper bound `log (6/5) < 0.1834`. -/
lemma log_six_fifths_lt : Real.log (6/5) < 0.1834 := by
  rw [Real.log_lt_iff_lt_exp (by norm_num)]
  have hle : ((1 : ℝ) + 0.1834/32) ^ (32:ℕ) ≤ Real.exp 0.1834 := by
    calc ((1:ℝ) + 0.1834/32) ^ (32:ℕ) ≤ Real.exp (0.1834/32) ^ (32:ℕ) := by
          refine pow_le_pow_left₀ (by norm_num) ?_ 32
          linarith [Real.add_one_le_exp (0.1834/32)]
      _ = Real.exp 0.1834 := by rw [← Real.exp_nat_mul]; norm_num
  have hgt : (6/5 : ℝ) < ((1:ℝ) + 0.1834/32) ^ (32:ℕ) := by norm_num
  linarith

/-- The MELD value of the spec's §8 example input
(bilirubin 2.0, INR 1.5, creatinine 1.2). -/
noncomputable def meldExampleVal : ℝ :=
  3.78 * Real.log 2 + 11.2 * Real.log (3/2) + 9.57 * Real.log (6/5) + 6.43

/-- The §8 example patient: bilirubin 2.0, INR 1.5, creatinine 1.2. -/
def pdMeld : PatientData :=
  { pdFull with total_bilirubin := some 2, inr := some (3/2), creatinine := some (6/5) }

lemma meldExampleVal_bounds : 15 < meldExampleVal ∧ meldExampleVal < 16 := by
  unfold meldExampleVal
  constructor
  · nlinarith [Real.log_two_gt_d9, log_three_halves_gt, log_six_fifths_gt]
  · nlinarith [Real.log_two_lt_d9, log_three_halves_lt, log_six_fifths_lt]

lemma shared_meld_at_pdMeld :
    (calculate_traditional_scores pdMeld).meld = ScoreVal.num meldExampleVal := by
  have hcond : isPresentPos pdMeld.total_bilirubin ∧ isPresentPos pdMeld.inr ∧
      isPresentPos pdMeld.creatinine := by
    refine ⟨?_, ?_, ?_⟩ <;> simp [pdMeld, pdFull, isPresentPos]
  simp only [calculate_traditional_scores, if_pos hcond, meldExampleVal]
  have h1 : pdMeld.total_bilirubin = some 2 := by simp [pdMeld, pdFull]
  have h2 : pdMeld.inr = some (3/2) := by simp [pdMeld, pdFull]
  have h3 : pdMeld.creatinine = some (6/5) := by simp [pdMeld, pdFull]
  rw [h1, h2, h3]
  norm_num

/-- C5 counterexample: on the claim's own input (bilirubin 2.0, INR 1.5,
creatinine 1.2) the shared calculator's MELD is
`3.78·ln 2 + 11.2·ln 1.5 + 9.57·ln 1.2 + 6.43 < 16`, hence more than 1 away
from the claimed value 17.4 — the "approximately 17.4" part of the claim is
false (the true value is ≈ 15.34). -/
theorem C5_counterexample_meld_value :
    (calculate_traditional_scores pdMeld).meld = ScoreVal.num meldExampleVal ∧
    meldExampleVal < 16 ∧ 1 < |meldExampleVal - 17.4| := by
  obtain ⟨hlo, hhi⟩ := meldExampleVal_bounds
  refine ⟨shared_meld_at_pdMeld, hhi, ?_⟩
  rw [lt_abs]
  right
  linarith

/-- C5 (amended): with bilirubin, INR and creatinine present and positive the
shared Traditional Score Calculator computes
`MELD = 3.78·ln(max(bil,1)) + 11.2·ln(max(inr,1)) + 9.57·ln(max(creat,1)) + 6.43`
(this calculator applies no `[6,40]` clamp), and on the §8 example
(bilirubin 2.0, INR 1.5, creatinine 1.2) the value lies in `(15, 20]` — it is
≈ 15.34, not ≈ 17.4 — so the Score Interpreter maps it to the `'high'` level. -/
theorem C5_meld_formula_and_high_level (pd : PatientData) (b i c : ℚ)
    (hb : pd.total_bilirubin = some b) (hi : pd.inr = some i)
    (hc : pd.creatinine = some c) (hbp : 0 < b) (hip : 0 < i) (hcp : 0 < c) :
    (calculate_traditional_scores pd).meld =
      .num (3.78 * Real.log ((max b 1 : ℚ) : ℝ) + 11.2 * Real.log ((max i 1 : ℚ) : ℝ) +
        9.57 * Real.log ((max c 1 : ℚ) : ℝ) + 6.43) ∧
    (15 < meldExampleVal ∧ meldExampleVal ≤ 20) ∧
    (get_score_interpretation englishResultsT "MELD" (.num meldExampleVal)).level =
      "High" := by
  obtain ⟨hlo, hhi⟩ := meldExampleVal_bounds
  refine ⟨?_, ⟨hlo, by linarith⟩, ?_⟩
  · simp only [calculate_traditional_scores, hb, hi, hc, Option.getD_some]
    rw [if_pos (⟨hbp, hip, hcp⟩ :
      isPresentPos (some b) ∧ isPresentPos (some i) ∧ isPresentPos (some c))]
  · simp only [get_score_interpretation, String.reduceEq, if_neg, reduceIte, interpMeld]
    rw [if_neg (by linarith), if_neg (by linarith), if_pos (by linarith)]
    simp [englishResultsT]

/-- C5 witness: the theorem applied at the §8 example patient. -/
theorem C5_witness :
    (calculate_traditional_scores pdMeld).meld =
      .num (3.78 * Real.log ((max (2:ℚ) 1 : ℚ) : ℝ) +
        11.2 * Real.log ((max (3/2:ℚ) 1 : ℚ) : ℝ) +
        9.57 * Real.log ((max (6/5:ℚ) 1 : ℚ) : ℝ) + 6.43) ∧
    (15 < meldExampleVal ∧ meldExampleVal ≤ 20) ∧
    (get_score_interpretation englishResultsT "MELD" (.num meldExampleVal)).level =
      "High" :=
  C5_meld_formula_and_high_level pdMeld 2 (3/2) (6/5)
    (by simp [pdMeld, pdFull]) (by simp [pdMeld, pdFull]) (by simp [pdMeld, pdFull])
    (by norm_num) (by norm_num) (by norm_num)

/-- C3 (amended): in the live artifact-free configuration the cirrhosis
predictor's returned `traditional_scores` embeds no FIB-4, APRI or MELD value
at all — every call returns the `'Error Fallback'` dict with empty
`traditional_scores` — so no embedded value is ever produced that could equal
the shared calculator's; moreover the dead `_calculate_traditional_scores`
helper, had it been reached, would not reproduce the shared values either: on
matching inputs its APRI is `1000 ×` the shared APRI (it divides platelets by
1000) rounded to two decimals. -/
theorem C3_no_embedded_scores (pd : PatientData) :
    (predictCirrhosis pd).tradScores.fib4 = none ∧
    (predictCirrhosis pd).tradScores.apri = none ∧
    (predictCirrhosis pd).tradScores.meld = none ∧
    (predictCirrhosis pd).modelType = "Error Fallback" ∧
    (predictCirrhosis pd).riskLevel = "Unknown" ∧
    (∀ (m : CirrMapped) (pd2 : PatientData), pd2.ast = some m.ast →
      pd2.trombosit = some m.trombosit → 0 < m.ast → 0 < m.trombosit →
      ∃ w : ℝ, (calculate_traditional_scores pd2).apri = .num w ∧
        (cirrTradScores m).apri = some (pyRound2 (1000 * w))) := by
  refine ⟨rfl, rfl, rfl, rfl, rfl, ?_⟩
  intro m pd2 hast2 htr2 hast htr
  have htne : ((m.trombosit : ℚ) : ℝ) ≠ 0 := by
    have : (0:ℝ) < ((m.trombosit : ℚ) : ℝ) := by exact_mod_cast htr
    linarith
  refine ⟨(((m.ast : ℚ) : ℝ) / 40) / ((m.trombosit : ℚ) : ℝ) * 100, ?_, ?_⟩
  · simp only [calculate_traditional_scores, hast2, htr2, Option.getD_some]
    rw [if_pos (⟨hast, htr⟩ :
      isPresentPos (some m.ast) ∧ isPresentPos (some m.trombosit))]
  · simp only [cirrTradScores]
    rw [if_pos htr]
    congr 1
    rw [show (((m.ast : ℚ) : ℝ) / 40) / (((m.trombosit : ℚ) : ℝ) / 1000) * 100 =
      1000 * ((((m.ast : ℚ) : ℝ) / 40) / ((m.trombosit : ℚ) : ℝ) * 100) from by
        field_simp; ring]

/-- C3 counterexample: on `pdFull` (all twelve fields present, AST 80,
platelets 200) the shared calculator's APRI is the number `1`, but the
cirrhosis predictor's returned `traditional_scores` contains no APRI (nor
FIB-4 nor MELD) at all and the result is the `'Error Fallback'` — the
claimed numerically-identical embedded values do not exist. -/
theorem C3_counterexample_no_embedded_scores :
    (predictCirrhosis pdFull).tradScores.fib4 = none ∧
    (predictCirrhosis pdFull).tradScores.apri = none ∧
    (predictCirrhosis pdFull).tradScores.meld = none ∧
    (predictCirrhosis pdFull).modelType = "Error Fallback" ∧
    (calculate_traditional_scores pdFull).apri = ScoreVal.num 1 := by
  refine ⟨rfl, rfl, rfl, rfl, ?_⟩
  simp only [calculate_traditional_scores, pdFull]
  rw [if_pos (by constructor <;> simp [isPresentPos])]
  simp only [Option.getD_some, ScoreVal.num.injEq]
  norm_num

/-- C7: on the HCC predictor's trained-classifier path the returned
`risk_probability` is `1 − P(class = 1)` evaluated on the preprocessed row
(numerical columns standardized by the fitted scaler; `Gender` and `Obesity`
passed through unscaled), and a missing `afp` defaults to `0`, a missing
`obesity` to `0`, without being counted as missing required fields. -/
theorem C7_hcc_one_minus_proba (P : HccParams) (pd : PatientData)
    (hload : P.loaded = true) (f : HccFeat) (hf : hccFeatures pd = some f)
    (hafp : pd.afp = none) (hob : pd.obesity = none) :
    f.afp = 0 ∧ f.obesity = 0 ∧
    (predictHcc P pd).riskProbability = 1 - P.probaClass1 (hccPreprocess P.scale f) ∧
    (hccPreprocess P.scale f).gender = (f.gender : ℝ) ∧
    (hccPreprocess P.scale f).obesity = (f.obesity : ℝ) ∧
    (predictHcc P pd).error = none ∧
    (predictHcc P pd).riskClass = P.predictClass (hccPreprocess P.scale f) := by
  have hparts : f.afp = 0 ∧ f.obesity = 0 := by
    unfold hccFeatures at hf
    split at hf
    · rw [Option.some_inj] at hf
      subst hf
      simp [hafp, hob]
    · exact absurd hf (by simp)
  refine ⟨hparts.1, hparts.2, ?_, rfl, rfl, ?_, ?_⟩ <;>
    simp only [predictHcc, hload, hf, Bool.true_eq_false, if_false]

/-- C7 environment witness data: a loaded classifier reporting
`P(class = 1) = 3/10` and the identity standardization. -/
noncomputable def hccP0 : HccParams :=
  { loaded := true, probaClass1 := fun _ => 3/10, predictClass := fun _ => 0,
    scale := fun _ q => (q : ℝ) }

/-- The patient `pdFull` without the optional HCC fields. -/
def pdHcc : PatientData := { pdFull with obesity := none }

/-- The mapped HCC feature dict of `pdHcc`. -/
def fHcc : HccFeat := ⟨50, 1, 80, 40, 3, 6/5, 9/5, 200000, 5/2, 1/2, 0, 100, 0⟩

/-- C7 witness: the theorem applied at a concrete patient and classifier. -/
theorem C7_witness :
    fHcc.afp = 0 ∧ fHcc.obesity = 0 ∧
    (predictHcc hccP0 pdHcc).riskProbability =
      1 - hccP0.probaClass1 (hccPreprocess hccP0.scale fHcc) ∧
    (hccPreprocess hccP0.scale fHcc).gender = (fHcc.gender : ℝ) ∧
    (hccPreprocess hccP0.scale fHcc).obesity = (fHcc.obesity : ℝ) ∧
    (predictHcc hccP0 pdHcc).error = none ∧
    (predictHcc hccP0 pdHcc).riskClass =
      hccP0.predictClass (hccPreprocess hccP0.scale fHcc) :=
  C7_hcc_one_minus_proba hccP0 pdHcc rfl fHcc
    (by simp [hccFeatures, pdHcc, pdFull, fHcc]; norm_num)
    (by simp [pdHcc, pdFull]) (by simp [pdHcc, pdFull])

/-- C1 (code bug): in the main path of the Result Composer, a missing
Child-Pugh input — here `ascites` absent, every other field of `pdFull`
present — or a present-but-non-positive albumin makes the Child-Pugh guard
execute a bare `return` (src/app.py:624-627 and 637-639), which exits the
whole route: no disease entry, no traditional score and no interpretation is
returned at all, for every classifier environment and translation table. -/
theorem C1_child_pugh_guard_aborts_route (P : HccParams) (tr : String → String) :
    calculate_risks P tr { pdFull with ascites := none } = none ∧
    calculate_risks P tr { pdFull with albumin := some 0 } = none := by
  constructor
  · simp [calculate_risks, pdFull]
  · simp [calculate_risks, pdFull]

/-- C4 (amended): a missing required field does not surface as a raised
condition that the Result Composer catches — each predictor catches its own
missing-field `ValueError` internally and returns its own stand-in dict, and
they differ: with `bmi` absent (a field required by Cirrhosis and NAFLD but
not by HCC) the cirrhosis predictor returns its generic `'Error Fallback'`
entry with `risk_level 'Unknown'` (not `'Error'`) and no `error` key, the
NAFLD predictor returns `classification 'Error'` with an `error` message, and
the HCC predictor — unaffected — still computes its classifier result; the
composer stores these returned dicts as they are. -/
theorem C4_predictors_swallow_missing_fields (P : HccParams) (pd : PatientData)
    (hload : P.loaded = true) (hbmi : pd.bmi = none)
    (a g s l t b n tb c db p : ℚ)
    (ha : pd.age = some a) (hg : pd.gender = some g) (hs : pd.ast = some s)
    (hl : pd.alt = some l) (ht : pd.trombosit = some t) (hb : pd.albumin = some b)
    (hn : pd.inr = some n) (htb : pd.total_bilirubin = some tb)
    (hc : pd.creatinine = some c) (hdb : pd.direct_bilirubin = some db)
    (hp : pd.alp = some p) :
    (predictCirrhosis pd).riskLevel = "Unknown" ∧
    (predictCirrhosis pd).modelType = "Error Fallback" ∧
    (predictCirrhosis pd).riskColor = "secondary" ∧
    (predictCirrhosis pd).error = none ∧
    (predictNafld pd).classification = "Error" ∧
    (predictNafld pd).riskColor = "secondary" ∧
    (predictNafld pd).error =
      some ("Missing required fields for NAFLD prediction: " ++
        String.intercalate ", " ["Body Mass Index"]) ∧
    (∃ f, hccFeatures pd = some f ∧
      (predictHcc P pd).riskProbability = 1 - P.probaClass1 (hccPreprocess P.scale f) ∧
      (predictHcc P pd).error = none) ∧
    (∀ asc enc : ℚ, pd.ascites = some asc → pd.encephalopathy = some enc →
      0 < b → 0 < tb → 0 < n →
      ∀ tr : String → String, ∃ res, calculate_risks P tr pd = some res ∧
        res.cirrhosis.riskLevel = tr "results.unknown" ∧
        res.cirrhosis.modelType = "Error Fallback" ∧
        res.nafld = predictNafld pd ∧
        res.hcc.error = none) := by
  have hmiss : nafldMissing pd = ["Body Mass Index"] := by
    simp [nafldMissing, ha, hg, hs, hl, ht, hb, hn, htb, hc, hdb, hp, hbmi]
  have hfeat : hccFeatures pd =
      some ⟨a, g, s, l, b, c, n, t * 1000, tb, db, pd.obesity.getD 0, p, pd.afp.getD 0⟩ := by
    simp [hccFeatures, ha, hg, hs, hl, ht, hb, hn, htb, hc, hdb, hp]
  refine ⟨?_, ?_, ?_, ?_, ?_, ?_, ?_, ?_, ?_⟩
  · rfl
  · rfl
  · rfl
  · rfl
  · simp [predictNafld, hmiss]
  · simp [predictNafld, hmiss]
  · simp [predictNafld, hmiss]
  · exact ⟨_, hfeat, by simp only [predictHcc, hload, hfeat, Bool.true_eq_false, if_false],
      by simp only [predictHcc, hload, hfeat, Bool.true_eq_false, if_false]⟩
  · intro asc enc hasc henc hbp htbp hnp tr
    have hval : ¬(b ≤ 0 ∨ tb ≤ 0 ∨ n ≤ 0) := by
      push_neg
      exact ⟨by linarith, by linarith, by linarith⟩
    refine ⟨⟨{ predictCirrhosis pd with
          riskLevel := translateLevel tr (predictCirrhosis pd).riskLevel },
        { predictHcc P pd with
          riskLevel := translateLevel tr (predictHcc P pd).riskLevel },
        predictNafld pd,
        { calculate_traditional_scores pd with
          childPughScore := some (.num
            (((calculate_child_pugh b tb n (pytrunc asc) (pytrunc enc)).1 : ℤ) : ℝ))
          childPughClass := some (.str
            (calculate_child_pugh b tb n (pytrunc asc) (pytrunc enc)).2) },
        mkInterps tr { calculate_traditional_scores pd with
          childPughScore := some (.num
            (((calculate_child_pugh b tb n (pytrunc asc) (pytrunc enc)).1 : ℤ) : ℝ))
          childPughClass := some (.str
            (calculate_child_pugh b tb n (pytrunc asc) (pytrunc enc)).2) },
        calculate_child_pugh b tb n (pytrunc asc) (pytrunc enc)⟩, ?_, ?_, ?_, rfl, ?_⟩
    · simp only [calculate_risks, hb, htb, hn, hasc, henc]
      rw [if_neg hval]
    · simp only [predictCirrhosis, translateLevel, String.reduceEq, reduceIte]
    · rfl
    · simp only [predictHcc, hload, hfeat, Bool.true_eq_false, if_false]

/-- The `pdFull` patient with the `bmi` field absent. -/
def pdNoBmi : PatientData := { pdFull with bmi := none }

/-- C4 counterexample: on a patient missing `bmi` the aggregate's cirrhosis
entry carries `risk_level 'Unknown'` — the composer does not turn the failure
into the claimed `{risk_level: Error}` entry. -/
theorem C4_counterexample_unknown_not_error :
    (calculate_risks hccP0 englishResultsT pdNoBmi).map
      (fun r => r.cirrhosis.riskLevel) = some "Unknown" ∧
    (calculate_risks hccP0 englishResultsT pdNoBmi).map
      (fun r => r.cirrhosis.riskLevel) ≠ some "Error" := by
  have h1 : (calculate_risks hccP0 englishResultsT pdNoBmi).map
      (fun r => r.cirrhosis.riskLevel) = some "Unknown" := by
    have halb : pdNoBmi.albumin = some 3 := rfl
    have htb : pdNoBmi.total_bilirubin = some (5/2) := rfl
    have hinr : pdNoBmi.inr = some (9/5) := rfl
    have hasc : pdNoBmi.ascites = some 1 := rfl
    have henc : pdNoBmi.encephalopathy = some 0 := rfl
    simp only [calculate_risks, halb, htb, hinr, hasc, henc]
    rw [if_neg (by norm_num)]
    simp [predictCirrhosis, translateLevel, englishResultsT]
  refine ⟨h1, ?_⟩
  rw [h1]
  simp

/-- C4 witness: the amended statement at the concrete patient missing `bmi`. -/
theorem C4_witness :
    (predictCirrhosis pdNoBmi).riskLevel = "Unknown" ∧
    (predictCirrhosis pdNoBmi).modelType = "Error Fallback" ∧
    (predictCirrhosis pdNoBmi).riskColor = "secondary" ∧
    (predictCirrhosis pdNoBmi).error = none ∧
    (predictNafld pdNoBmi).classification = "Error" ∧
    (predictNafld pdNoBmi).riskColor = "secondary" ∧
    (predictNafld pdNoBmi).error =
      some ("Missing required fields for NAFLD prediction: " ++
        String.intercalate ", " ["Body Mass Index"]) ∧
    (∃ f, hccFeatures pdNoBmi = some f ∧
      (predictHcc hccP0 pdNoBmi).riskProbability =
        1 - hccP0.probaClass1 (hccPreprocess hccP0.scale f) ∧
      (predictHcc hccP0 pdNoBmi).error = none) ∧
    (∀ asc enc : ℚ, pdNoBmi.ascites = some asc → pdNoBmi.encephalopathy = some enc →
      (0:ℚ) < 3 → (0:ℚ) < 5/2 → (0:ℚ) < 9/5 →
      ∀ tr : String → String, ∃ res, calculate_risks hccP0 tr pdNoBmi = some res ∧
        res.cirrhosis.riskLevel = tr "results.unknown" ∧
        res.cirrhosis.modelType = "Error Fallback" ∧
        res.nafld = predictNafld pdNoBmi ∧
        res.hcc.error = none) :=
  C4_predictors_swallow_missing_fields hccP0 pdNoBmi rfl rfl
    50 1 80 40 200 3 (9/5) (5/2) (6/5) (1/2) 100
    rfl rfl rfl rfl rfl rfl rfl rfl rfl rfl rfl

/-- The HCC environment with the trained artifact deliberately absent. -/
noncomputable def hccPOff : HccParams :=
  { loaded := false, probaClass1 := fun _ => 0, predictClass := fun _ => 0,
    scale := fun _ q => (q : ℝ) }

/-- C8 (code bug): with the HCC trained artifact absent, on the failing input
`pdFull` the overall call still succeeds, the HCC entry carries
`risk_level 'Error'` and color `'secondary'`, the NAFLD entry is its
predictor's own valid (non-error, rule-based) output, and the HCC failure
neither aborts the call nor touches the other predictors — but the aggregate
does not contain the claimed *valid* Cirrhosis entry: in the artifact-free
configuration the cirrhosis predictor always returns its
`'Error Fallback'` / `'Unknown'` stand-in (its `load_model` announces
"using rule-based calculations" yet never sets `feature_names`, so
`predict_risk` fails before any rule-based computation), independent of HCC. -/
theorem C8_hcc_absent_aggregate_at_failing_input :
    ∃ res, calculate_risks hccPOff englishResultsT pdFull = some res ∧
      res.hcc.riskLevel = "Error" ∧
      res.hcc.riskColor = "secondary" ∧
      res.hcc.error = some "Model or scaler not loaded properly" ∧
      res.nafld = predictNafld pdFull ∧
      res.nafld.modelType = "Rule-based Classification" ∧
      res.nafld.error = none ∧
      res.cirrhosis.riskLevel = "Unknown" ∧
      res.cirrhosis.modelType = "Error Fallback" ∧
      res.cirrhosis.error = none := by
  have hmiss : nafldMissing pdFull = [] := by simp [nafldMissing, pdFull]
  refine ⟨⟨{ predictCirrhosis pdFull with
        riskLevel := translateLevel englishResultsT (predictCirrhosis pdFull).riskLevel },
      { predictHcc hccPOff pdFull with
        riskLevel := translateLevel englishResultsT (predictHcc hccPOff pdFull).riskLevel },
      predictNafld pdFull,
      { calculate_traditional_scores pdFull with
        childPughScore := some (.num
          (((calculate_child_pugh 3 (5/2) (9/5) (pytrunc 1) (pytrunc 0)).1 : ℤ) : ℝ))
        childPughClass := some (.str
          (calculate_child_pugh 3 (5/2) (9/5) (pytrunc 1) (pytrunc 0)).2) },
      mkInterps englishResultsT { calculate_traditional_scores pdFull with
        childPughScore := some (.num
          (((calculate_child_pugh 3 (5/2) (9/5) (pytrunc 1) (pytrunc 0)).1 : ℤ) : ℝ))
        childPughClass := some (.str
          (calculate_child_pugh 3 (5/2) (9/5) (pytrunc 1) (pytrunc 0)).2) },
      calculate_child_pugh 3 (5/2) (9/5) (pytrunc 1) (pytrunc 0)⟩,
    ?_, ?_, ?_, ?_, rfl, ?_, ?_, ?_, rfl, rfl⟩
  · have halb : pdFull.albumin = some 3 := rfl
    have htb : pdFull.total_bilirubin = some (5/2) := rfl
    have hinr : pdFull.inr = some (9/5) := rfl
    have hasc : pdFull.ascites = some 1 := rfl
    have henc : pdFull.encephalopathy = some 0 := rfl
    simp only [calculate_risks, halb, htb, hinr, hasc, henc]
    rw [if_neg (by norm_num)]
  · simp only [predictHcc, hccPOff, hccErrorResult, translateLevel, englishResultsT,
      String.reduceEq, reduceIte]
  · simp only [predictHcc, hccPOff, hccErrorResult, reduceIte]
  · simp only [predictHcc, hccPOff, hccErrorResult, reduceIte]
  · simp only [predictNafld, hmiss, reduceIte]
  · simp only [predictNafld, hmiss, reduceIte]
  · simp only [predictCirrhosis, translateLevel, englishResultsT, String.reduceEq,
      reduceIte]
